import Mathlib

/-!
Verification of the JGBF weekly-report extraction pipeline.

The definitions below are a shallow embedding of the Python sources
(`multiple.py`, `new2.py`, `Scrape.py`).  Pure functions become Lean
functions; cell values read from spreadsheets are modelled as
`Option String` (a `None`/empty cell is `none`/`some ""`); file and
workbook I/O is abstracted by passing the already-read content
(sheet names, subtitles, data rows) as arguments.  Exceptions inside
`try`-blocks are modelled with `Option`.
-/

/-! ### Python string primitives used by the sources -/

/-- `startsWithList p s` is true when `p` is a prefix of `s` (character lists). -/
def startsWithList : List Char → List Char → Bool
  | [], _ => true
  | _ :: _, [] => false
  | a :: ps, b :: ss => a == b && startsWithList ps ss

/-- Helper for substring search: does `p` occur in the given suffix list. -/
def containsAux (p : List Char) : List Char → Bool
  | [] => startsWithList p []
  | c :: cs => startsWithList p (c :: cs) || containsAux p cs

/-- Python's `needle in hay` substring test. -/
def pyIn (needle hay : String) : Bool := containsAux needle.data hay.data

/-- Whitespace characters stripped by Python's `str.strip()` (the ASCII ones;
the source data never carries non-ASCII whitespace). -/
def pyIsSpace (c : Char) : Bool :=
  c == ' ' || c == '\t' || c == '\n' || c == '\r' || c == '\x0b' || c == '\x0c'

/-- Python's `str.strip()`. -/
def pyStrip (s : String) : String :=
  String.mk (((s.data.dropWhile pyIsSpace).reverse.dropWhile pyIsSpace).reverse)

/-- Helper for `pyTitle`: the boolean tracks whether the previous character
was alphabetic. -/
def pyTitleGo : Bool → List Char → List Char
  | _, [] => []
  | prevAlpha, c :: cs =>
    (if c.isAlpha then (if prevAlpha then c.toLower else c.toUpper) else c) ::
      pyTitleGo c.isAlpha cs

/-- Python's `str.title()` (ASCII letters, which is all the sources feed it). -/
def pyTitle (s : String) : String := String.mk (pyTitleGo false s.data)

/-- Python's `str.lower()` (ASCII letters; other characters are unchanged). -/
def pyLower (s : String) : String := String.mk (s.data.map Char.toLower)

/-- Python's `str.replace(old, new)` for a one-character `old`, the only shape
the sources use. -/
def replaceChar (old : Char) (new : List Char) (s : String) : String :=
  String.mk (s.data.flatMap fun c => if c == old then new else [c])

/-! ### Data model (`multiple.py`) -/

/-- One extracted `(SeriesCode, WeekKey, value)` triple: the dictionaries
`{'code': ..., 'date': ..., 'value': ...}` built by `_parse_table`. -/
structure Datum where
  code : String
  date : String
  value : String
  deriving DecidableEq, Repr

/-- One entry of the output template: `{'code': ..., 'description': ...}`. -/
structure TemplateColumn where
  code : String
  description : String
  deriving DecidableEq, Repr

/-- `JGBFParser.instrument_mapping` (subtitle text → instrument code). -/
def instrument_mapping : List (String × String) :=
  [("JGB(10-year) Futures", "JGB10YEARFUTURES"),
   ("mini-10-year JGB Futures", "MINI10YEARJGBFUTURESCASHSETTLED"),
   ("mini-20-year JGB Futures", "MINI20YEARJGBFUTURES"),
   ("3-Month TONA Futures", "3MONTHTONAFUTURES")]

/-- `JGBFParser.main_summary_categories` (Japanese label → category code). -/
def main_summary_categories : List (String × String) :=
  [("自己取引計", "PROPRIETARY"), ("委託取引計", "BROKERAGE"), ("自己委託合計", "TOTAL")]

/-- `JGBFParser.brokerage_categories` (Japanese label → category code). -/
def brokerage_categories : List (String × String) :=
  [("法人計", "INSTITUTIONS"), ("個人計", "INDIVIDUALS"),
   ("海外投資家計", "FOREIGNERS"), ("証券会社", "SECURITIES_COS")]

/-- `JGBFParser.subcategories` (Japanese label → subcategory code). -/
def subcategories : List (String × String) :=
  [("売り", "SALES"), ("買い", "PURCHASES")]

/-- `JGBFParser.month_map`. -/
def month_map : List (String × Nat) :=
  [("Jan", 1), ("Feb", 2), ("Mar", 3), ("Apr", 4), ("May", 5), ("Jun", 6),
   ("Jul", 7), ("Aug", 8), ("Sep", 9), ("Oct", 10), ("Nov", 11), ("Dec", 12)]

/-! ### Template generation (`get_template_columns`, multiple.py lines 43-77) -/

/-- The `instruments` dictionary local to `get_template_columns`
(instrument code → display name). -/
def instruments : List (String × String) :=
  [("JGB10YEARFUTURES", "JGB(10-year) Futures"),
   ("MINI10YEARJGBFUTURESCASHSETTLED", "mini-10-year JGB Futures（Cash-Settled)"),
   ("MINI20YEARJGBFUTURES", "mini-20-year JGB Futures"),
   ("3MONTHTONAFUTURES", "3-Month TONA Futures")]

/-- The `main_cats` dictionary local to `get_template_columns`. -/
def main_cats : List (String × String) :=
  [("PROPRIETARY", "Proprietary"), ("BROKERAGE", "Brokerage"), ("TOTAL", "Total")]

/-- The `breakdown_cats` dictionary local to `get_template_columns`. -/
def breakdown_cats : List (String × String) :=
  [("INSTITUTIONS", "Institutions"), ("INDIVIDUALS", "Individuals"),
   ("FOREIGNERS", "Foreigners"), ("SECURITIES_COS", "Securities Cos")]

/-- The subcategory loop list `["SALES", "PURCHASES"]`. -/
def subcat_list : List String := ["SALES", "PURCHASES"]

/-- The metric loop list `["VALUE", "BALANCE"]`. -/
def metric_list : List String := ["VALUE", "BALANCE"]

/-- One main-summary template entry (multiple.py lines 60-62). -/
def mainTemplateEntry (ip cp : String × String) (subcat metric : String) : TemplateColumn :=
  { code := "JGBF.TOTAL_PROPRIETARY_BROKERAGE." ++ ip.1 ++ ".TRADINGVALUE." ++ cp.1 ++
      "." ++ subcat ++ "." ++ metric ++ ".W",
    description := "Trading by Type of Investors, " ++ ip.2 ++
      ", Total, Proprietary ＆ Brokerage, Trading Value, " ++ cp.2 ++ ", " ++
      pyTitle subcat ++ ", " ++ pyTitle metric }

/-- One breakdown template entry (multiple.py lines 69-74); note the special
domain prefix for the 10-year future. -/
def breakdownTemplateEntry (ip cp : String × String) (subcat metric : String) : TemplateColumn :=
  { code := if ip.1 = "JGB10YEARFUTURES" then
      "JGBF.TRADINGBYTYPEOFINVESTORS." ++ ip.1 ++ ".BREAKDOWNOFBROKERAGE.TRADINGVALUE." ++
        cp.1 ++ "." ++ subcat ++ "." ++ metric ++ ".W"
    else
      "JGBF.TOTAL_PROPRIETARY_BROKERAGE." ++ ip.1 ++ ".BREAKDOWNOFBROKERAGE.TRADINGVALUE." ++
        cp.1 ++ "." ++ subcat ++ "." ++ metric ++ ".W",
    description := "Trading by Type of Investors, " ++ ip.2 ++
      ", Breakdown of Brokerage, Trading Value, " ++ cp.2 ++ ", " ++
      pyTitle subcat ++ ", " ++ pyTitle metric }

/-- `JGBFParser.get_template_columns`: the nested loops of multiple.py
lines 56-75, appending first all main-summary entries and then all
breakdown entries. -/
def get_template_columns : List TemplateColumn :=
  (instruments.flatMap fun ip =>
    main_cats.flatMap fun cp =>
      subcat_list.flatMap fun subcat =>
        metric_list.map fun metric => mainTemplateEntry ip cp subcat metric)
  ++
  (instruments.flatMap fun ip =>
    breakdown_cats.flatMap fun cp =>
      subcat_list.flatMap fun subcat =>
        metric_list.map fun metric => breakdownTemplateEntry ip cp subcat metric)

/-! ### Sign normalization and the row parser (multiple.py lines 108-153) -/

/-- `JGBFParser.handle_negative_values` (multiple.py lines 108-111).
The cell value is `Option String`: `none` is Python `None`. -/
def handle_negative_values (value : Option String) : String :=
  match value with
  | none => ""
  | some v =>
    if v = "-" ∨ v = "" then ""
    else
      let value_str := pyStrip v
      if startsWithList "▲".data value_str.data then "-" ++ value_str.drop 1
      else value_str

/-- The series-code templating of `_parse_table` (multiple.py lines 143-149). -/
def parse_series_code (is_main : Bool) (instrument_code category subcat metric : String) : String :=
  if is_main then
    "JGBF.TOTAL_PROPRIETARY_BROKERAGE." ++ instrument_code ++ ".TRADINGVALUE." ++ category ++
      "." ++ subcat ++ "." ++ metric ++ ".W"
  else if instrument_code = "JGB10YEARFUTURES" then
    "JGBF.TRADINGBYTYPEOFINVESTORS." ++ instrument_code ++ ".BREAKDOWNOFBROKERAGE.TRADINGVALUE." ++
      category ++ "." ++ subcat ++ "." ++ metric ++ ".W"
  else
    "JGBF.TOTAL_PROPRIETARY_BROKERAGE." ++ instrument_code ++ ".BREAKDOWNOFBROKERAGE.TRADINGVALUE." ++
      category ++ "." ++ subcat ++ "." ++ metric ++ ".W"

/-- The `cat_full` cell text of a row: `str(row[0] or "")`. -/
def cat_full (row : List (Option String)) : String := (row.getD 0 none).getD ""

/-- The `subcat_raw` cell text of a row: `str(row[1] or "")`. -/
def subcat_raw (row : List (Option String)) : String := (row.getD 1 none).getD ""

/-- One iteration of the metric loop of `_parse_table`
(multiple.py lines 139-152): emit a datum when the normalized figure is
non-empty and the generated code is non-empty. -/
def emitMetric (is_main : Bool) (instrument_code date_code category subcat metric : String)
    (data_val : Option String) : List Datum :=
  let processed := handle_negative_values data_val
  if processed ≠ "" then
    let code := parse_series_code is_main instrument_code category subcat metric
    if code ≠ "" then [{ code := code, date := date_code, value := processed }] else []
  else []

/-- The body of the row loop of `_parse_table` (multiple.py lines 130-152). -/
def parseRow (category_map : List (String × String)) (is_main : Bool)
    (instrument_code date_code : String) (row : List (Option String)) : List Datum :=
  if row.length < 8 then []
  else if cat_full row = "" ∨ subcat_raw row = "" ∨ pyIn "合計" (subcat_raw row) then []
  else
    match category_map.find? (fun p => pyIn p.1 (cat_full row)),
          subcategories.find? (fun p => pyIn p.1 (subcat_raw row)) with
    | some cp, some sp =>
        emitMetric is_main instrument_code date_code cp.2 sp.2 "VALUE" (row.getD 5 none)
          ++ emitMetric is_main instrument_code date_code cp.2 sp.2 "BALANCE" (row.getD 7 none)
    | _, _ => []

/-- `JGBFParser._parse_table` (multiple.py lines 125-153): the sheet's data
rows are the `data_rows` of the sheet-data dictionary. -/
def _parse_table (data_rows : List (List (Option String)))
    (instrument_code date_code table_type : String) : List Datum :=
  let is_main := table_type == "main_summary"
  let category_map := if is_main then main_summary_categories else brokerage_categories
  data_rows.flatMap (parseRow category_map is_main instrument_code date_code)

/-! ### Gregorian / ISO-8601 calendar (Python `datetime.isocalendar`) -/

/-- Gregorian leap year. -/
def isLeap (y : Nat) : Bool := y % 4 == 0 && (y % 100 != 0 || y % 400 == 0)

/-- Days in a month of the Gregorian calendar. -/
def daysInMonth (y m : Nat) : Nat :=
  if m = 2 then (if isLeap y then 29 else 28)
  else if m = 4 ∨ m = 6 ∨ m = 9 ∨ m = 11 then 30
  else 31

/-- Day of the year (1-based). -/
def dayOfYear (y m d : Nat) : Nat :=
  ((List.range (m - 1)).map (fun i => daysInMonth y (i + 1))).sum + d

/-- ISO day of the week, Monday = 1 .. Sunday = 7, proleptic Gregorian
(January 1 of year 1 is a Monday). -/
def dowISO (y m d : Nat) : Nat :=
  let days := 365 * (y - 1) + (y - 1) / 4 - (y - 1) / 100 + (y - 1) / 400 + dayOfYear y m d
  (days - 1) % 7 + 1

/-- Number of ISO weeks in a year: 53 when January 1 falls on a Thursday, or
on a Wednesday in a leap year; otherwise 52. -/
def isoWeeksInYear (y : Nat) : Nat :=
  let jan1 := dowISO y 1 1
  if jan1 = 4 ∨ (isLeap y ∧ jan1 = 3) then 53 else 52

/-- The `(iso_year, iso_week)` pair of `datetime.isocalendar()`
(Thursday-anchored ISO 8601 week numbering). -/
def isoYearWeek (y m d : Nat) : Nat × Nat :=
  let doy := dayOfYear y m d
  let dow := dowISO y m d
  let w := (doy + 10 - dow) / 7
  if w = 0 then (y - 1, isoWeeksInYear (y - 1))
  else if w > isoWeeksInYear y then (y + 1, 1)
  else (y, w)

/-- Validity test of `datetime(year, month, day)`: the constructor raises
`ValueError` outside these bounds (model of the `try`/`except` guards). -/
def validDate (y m d : Nat) : Bool :=
  1 ≤ y && y ≤ 9999 && 1 ≤ m && m ≤ 12 && 1 ≤ d && d ≤ daysInMonth y m

/-- Python's `f"{n:02d}"` for the week number. -/
def pad2 (n : Nat) : String := if n < 10 then "0" ++ Nat.repr n else Nat.repr n

/-- `f"{iso_year}-{iso_week:02d}"` when the date is constructible, `none`
when `datetime` would raise. -/
def isoWeekString? (y m d : Nat) : Option String :=
  if validDate y m d then
    some (Nat.repr (isoYearWeek y m d).1 ++ "-" ++ pad2 (isoYearWeek y m d).2)
  else none

/-! ### The three `re.search` patterns of `extract_date_from_filename`
(multiple.py lines 88-106), embedded with leftmost-match, greedy,
backtracking semantics. -/

/-- Numeric value of a digit group (`int(...)` on the matched digits). -/
def digitsVal (cs : List Char) : Nat :=
  cs.foldl (fun a c => a * 10 + (c.toNat - '0'.toNat)) 0

/-- Exactly `n` digits: `\d{n}`.  Returns the digits and the rest. -/
def splitDigits : Nat → List Char → Option (List Char × List Char)
  | 0, cs => some ([], cs)
  | n + 1, c :: cs =>
    if c.isDigit then (splitDigits n cs).map (fun p => (c :: p.1, p.2)) else none
  | _ + 1, [] => none

/-- The candidate splits of `\d{1,2}` in greedy order (two digits first,
then one), for regex backtracking. -/
def digitCands : List Char → List (List Char × List Char)
  | c1 :: c2 :: rest =>
    if c1.isDigit && c2.isDigit then [([c1, c2], rest), ([c1], c2 :: rest)]
    else if c1.isDigit then [([c1], c2 :: rest)] else []
  | [c1] => if c1.isDigit then [([c1], [])] else []
  | [] => []

/-- Case-insensitive literal match (for `Week` under `re.IGNORECASE`). -/
def matchLitCI : List Char → List Char → Option (List Char)
  | [], cs => some cs
  | p :: ps, c :: cs => if p.toLower == c.toLower then matchLitCI ps cs else none
  | _ :: _, [] => none

/-- First candidate that continues to a full match (regex backtracking). -/
def firstSome {α β : Type} (f : α → Option β) : List α → Option β
  | [] => none
  | a :: as =>
    match f a with
    | some b => some b
    | none => firstSome f as

/-- Match of pattern 1, `_(\d{4})_Week\d_(\d{1,2})-(\d{1,2})`, anchored at the
head of the list; yields `(year, month, day)`. -/
def match1At : List Char → Option (Nat × Nat × Nat)
  | '_' :: r1 =>
    match splitDigits 4 r1 with
    | some (ys, '_' :: r3) =>
      match matchLitCI ['w', 'e', 'e', 'k'] r3 with
      | some (wd :: '_' :: r6) =>
        if wd.isDigit then
          firstSome (fun mcand =>
            match mcand.2 with
            | '-' :: r7 =>
              (digitCands r7).head?.map fun dcand =>
                (digitsVal ys, digitsVal mcand.1, digitsVal dcand.1)
            | _ => none) (digitCands r6)
        else none
      | _ => none
    | _ => none
  | _ => none

/-- Match of pattern 2, `([A-Za-z]{3})_(\d{4})_Week\d_(\d{1,2})-\d{1,2}`,
anchored at the head; yields `(month-name chars, year, day)`. -/
def match2At : List Char → Option (List Char × Nat × Nat)
  | c1 :: c2 :: c3 :: '_' :: r2 =>
    if c1.isAlpha && c2.isAlpha && c3.isAlpha then
      match splitDigits 4 r2 with
      | some (ys, '_' :: r3) =>
        match matchLitCI ['w', 'e', 'e', 'k'] r3 with
        | some (wd :: '_' :: r6) =>
          if wd.isDigit then
            firstSome (fun mcand =>
              match mcand.2 with
              | '-' :: r7 =>
                if (digitCands r7).isEmpty then none
                else some ([c1, c2, c3], digitsVal ys, digitsVal mcand.1)
              | _ => none) (digitCands r6)
          else none
        | _ => none
      | _ => none
    else none
  | _ => none

/-- Match of pattern 3, `_([A-Za-z]{3})\.?_(\d{1,2})_(\d{4})_-_`, anchored at
the head; yields `(month-name chars, day, year)`. -/
def match3At : List Char → Option (List Char × Nat × Nat)
  | '_' :: c1 :: c2 :: c3 :: r1 =>
    if c1.isAlpha && c2.isAlpha && c3.isAlpha then
      match (match r1 with | '.' :: r2 => r2 | _ => r1) with
      | '_' :: r3 =>
        firstSome (fun dcand =>
          match dcand.2 with
          | '_' :: r4 =>
            match splitDigits 4 r4 with
            | some (ys, '_' :: '-' :: '_' :: _) =>
              some ([c1, c2, c3], digitsVal dcand.1, digitsVal ys)
            | _ => none
          | _ => none) (digitCands r3)
      | _ => none
    else none
  | _ => none

/-- `re.search`: try the anchored matcher at each position, leftmost first
(the empty suffix included). -/
def searchFrom {β : Type} (f : List Char → Option β) : List Char → Option β
  | [] => f []
  | c :: cs =>
    match f (c :: cs) with
    | some b => some b
    | none => searchFrom f cs

/-- `JGBFParser.extract_date_from_filename` (multiple.py lines 88-106):
the three patterns are tried in order; a `datetime` that would raise makes
the pattern fall through to the next one; total failure yields the
`"UNKNOWN_DATE"` sentinel.  The function is total: no exception escapes. -/
def extract_date_from_filename (filename : String) : String :=
  let cs := filename.data
  let r1 : Option String :=
    match searchFrom match1At cs with
    | some (y, m, d) => isoWeekString? y m d
    | none => none
  match r1 with
  | some s => s
  | none =>
    let r2 : Option String :=
      match searchFrom match2At cs with
      | some (mn, y, d) =>
        match month_map.find? (fun p => p.1 == pyTitle (String.mk mn)) with
        | some p => isoWeekString? y p.2 d
        | none => none
      | none => none
    match r2 with
    | some s => s
    | none =>
      let r3 : Option String :=
        match searchFrom match3At cs with
        | some (mn, d, y) =>
          match month_map.find? (fun p => p.1 == pyTitle (String.mk mn)) with
          | some p => isoWeekString? y p.2 d
          | none => none
        | none => none
      match r3 with
      | some s => s
      | none => "UNKNOWN_DATE"

/-! ### Filename generation (`Scrape.py` lines 185-187) -/

/-- `JPXScraper.generate_filename`: clean the date text and keep only
alphanumerics and `._-` (ASCII `isalnum`; after the replacements the scraped
date labels are ASCII). -/
def generate_filename (date_text file_type : String) : String :=
  let s1 := replaceChar '（' ['_'] date_text
  let s2 := replaceChar '）' [] s1
  let s3 := replaceChar '/' ['-'] s2
  let s4 := replaceChar ' ' ['_'] s3
  let s5 := replaceChar ',' [] s4
  String.mk (s5.data.filter fun c => c.isAlphanum || c == '.' || c == '_' || c == '-')
    ++ "." ++ file_type

/-! ### Instrument classification and per-file processing
(multiple.py lines 80-86 and 155-178) -/

/-- `JGBFParser.extract_instrument_from_subtitle` (multiple.py lines 80-86). -/
def extract_instrument_from_subtitle (subtitle : String) : Option String :=
  let subtitle_clean :=
    replaceChar '、' [','] (replaceChar '）' [')'] (replaceChar '（' ['('] subtitle))
  if pyIn "mini-20-year" (pyLower subtitle_clean) || pyIn "超長期国債先物" subtitle_clean then
    some "MINI20YEARJGBFUTURES"
  else if pyIn "3-Month TONA" subtitle_clean || pyIn "TONA" subtitle_clean then
    some "3MONTHTONAFUTURES"
  else if pyIn "JGB(10-year)" subtitle_clean || pyIn "長期国債先物" subtitle_clean then
    (if pyIn "mini" (pyLower subtitle_clean) || pyIn "ミニ" subtitle_clean then
      some "MINI10YEARJGBFUTURESCASHSETTLED"
    else some "JGB10YEARFUTURES")
  else none

/-- One worksheet of an input workbook, as `read_excel_sheet` delivers it
(multiple.py lines 113-123): the sheet name, the `Subtitle:`-stripped cell
`A2`, and the data rows from row 6 on.  Workbook I/O is abstracted: the
already-read content is the argument. -/
structure SheetInput where
  sheet_name : String
  subtitle : String
  data_rows : List (List (Option String))

/-- `JGBFParser.process_single_file` (multiple.py lines 155-178), with the
workbook abstracted to its sheet list.  A file whose stem parses to
`"UNKNOWN_DATE"` is skipped entirely.  The row filter mirrors
`if row and row[0]` of `read_excel_sheet` (line 119). -/
def process_single_file (filename_stem : String) (sheets : List SheetInput) : List Datum :=
  let date_code := extract_date_from_filename filename_stem
  if date_code = "UNKNOWN_DATE" then []
  else
    sheets.flatMap fun sh =>
      let table_type : Option String :=
        if pyIn "Table1_Main_Summary" sh.sheet_name then some "main_summary"
        else if pyIn "Table2_Brokerage_Bre" sh.sheet_name then some "brokerage_breakdown"
        else none
      match table_type with
      | none => []
      | some tt =>
        match extract_instrument_from_subtitle sh.subtitle with
        | none => []
        | some instr =>
          _parse_table
            (sh.data_rows.filter fun r => !r.isEmpty && ((r.getD 0 none).getD "" != ""))
            instr date_code tt

/-! ### Consolidation pivot (`generate_output_file`, multiple.py lines 180-214) -/

/-- The cell lookup of the pivot dictionary built on multiple.py lines
185-189: `data_pivot.setdefault(code, {})[date] = value` is last-write-wins,
and `data_pivot.get(code, {}).get(date, "")` (line 210) is `""` when absent.
The last list entry with the given code and date therefore decides the cell. -/
def pivotGet (all_data : List Datum) (code date : String) : String :=
  match (all_data.filter fun d => d.code == code && d.date == date).getLast? with
  | some d => d.value
  | none => ""

/-- `all_dates` of multiple.py line 189: the sorted distinct dates other than
`"UNKNOWN_DATE"` (a set comprehension followed by `sorted`; any correct sort
of the deduplicated list is the same list). -/
def sorted_dates (all_data : List Datum) : List String :=
  (((all_data.map (·.date)).dedup).filter (fun d => d != "UNKNOWN_DATE")).insertionSort (· ≤ ·)

/-- `JGBFParser.generate_output_file` (multiple.py lines 180-214), modelled as
the grid of cell values it writes: row 1 is `Date` plus the template codes,
row 2 is `Description` plus the template descriptions, and each further row
is one week key followed by the pivot cells in template-column order.
`none` models the early returns that write no file (no data, or no valid
dates). -/
def generate_output_file (all_data : List Datum) : Option (List (List String)) :=
  if all_data.isEmpty then none
  else
    let all_dates := sorted_dates all_data
    if all_dates.isEmpty then none
    else
      let tmpl := get_template_columns
      some (("Date" :: tmpl.map (·.code)) ::
        ("Description" :: tmpl.map (·.description)) ::
        all_dates.map fun dt => dt :: tmpl.map fun col => pivotGet all_data col.code dt)

/-- No two entries of the list give different values to the same
`(SeriesCode, WeekKey)` cell. -/
def conflictFree (l : List Datum) : Prop :=
  ∀ d₁ ∈ l, ∀ d₂ ∈ l, d₁.code = d₂.code → d₁.date = d₂.date → d₁.value = d₂.value

/-! ### Table-title slot assignment (`new2.py` lines 119-139 and 267-287) -/

/-- `TitleEnhancedConverter.table_section_titles` (new2.py lines 119-124). -/
def table_section_titles : List String :=
  ["総計・自己合計・委託合計 Total, Proprietary & Brokerage",
   "委託内訳 Breakdown of Brokerage",
   "法人内訳 Breakdown of Institutions",
   "金融機関内訳 Breakdown of Financial Institutions"]

/-- `TitleEnhancedConverter.table_keywords` (new2.py line 125). -/
def table_keywords : List String :=
  ["総計・自己合計・委託合計", "委託内訳", "法人内訳", "金融機関内訳"]

/-- The `while len(found_titles) < len(self.table_keywords)` padding loop of
`extract_table_titles_from_text` (new2.py lines 137-138), with an explicit
iteration bound: each pass appends one title, so four passes always reach
the exit condition `len >= 4`, whatever the starting list. -/
def padTitlesAux : Nat → List String → List String
  | 0, l => l
  | n + 1, l =>
    if l.length < 4 then
      padTitlesAux n (l ++ ["Table Title " ++ Nat.repr (l.length + 1) ++ " (Not Found)"])
    else l

/-- The padding loop of new2.py lines 137-138 (see `padTitlesAux`). -/
def padTitles (l : List String) : List String := padTitlesAux 4 l

/-- `TitleEnhancedConverter.extract_table_titles_from_text`
(new2.py lines 132-139): collect the section titles whose keyword occurs in
the page text, then pad with placeholders up to four entries. -/
def extract_table_titles_from_text (text : String) : List String :=
  padTitles ((table_keywords.zip table_section_titles).filterMap fun p =>
    if pyIn p.1 text then some p.2 else none)

/-- The per-page slot assignment of `convert_docx_to_excel`
(new2.py lines 280-287): table `i` of a page gets the section title in slot
`i % 4`, with an index-based fallback label when the slot is beyond the
supplied title list. -/
def assign_table_titles (page_table_titles : List String) (table_count : Nat) : List String :=
  (List.range table_count).map fun i =>
    let table_pos_on_page := i % 4
    if table_pos_on_page < page_table_titles.length then
      page_table_titles.getD table_pos_on_page ""
    else "Table Title " ++ Nat.repr (table_pos_on_page + 1)

/-! ### Concrete inputs used by counterexamples and witnesses -/

/-- The first template column's series code. -/
def firstTemplateCode : String :=
  "JGBF.TOTAL_PROPRIETARY_BROKERAGE.JGB10YEARFUTURES.TRADINGVALUE.PROPRIETARY.SALES.VALUE.W"

/-- Two data points for the same series and week with different values, in
one order. -/
def conflictDataA : List Datum :=
  [{ code := firstTemplateCode, date := "2025-28", value := "1" },
   { code := firstTemplateCode, date := "2025-28", value := "2" }]

/-- The same two data points in the opposite order. -/
def conflictDataB : List Datum :=
  [{ code := firstTemplateCode, date := "2025-28", value := "2" },
   { code := firstTemplateCode, date := "2025-28", value := "1" }]

/-- An injective radix encoding of a string as a natural number (used to make
duplicate detection on the template cheap for the kernel). -/
def strKey (s : String) : Nat := s.data.foldl (fun a c => a * 1114112 + c.toNat) 1

/-! ### Helper lemmas -/

/-- Zeta-reduced form of `_parse_table` (the Python locals `is_main` and
`category_map` inlined). -/
theorem parse_table_def (rows : List (List (Option String))) (i dc tt : String) :
    _parse_table rows i dc tt =
      rows.flatMap (parseRow
        (if tt == "main_summary" then main_summary_categories else brokerage_categories)
        (tt == "main_summary") i dc) := rfl

/-- Zeta-reduced form of `emitMetric`. -/
theorem emitMetric_def (im : Bool) (i dc c s m : String) (v : Option String) :
    emitMetric im i dc c s m v =
      if handle_negative_values v ≠ "" then
        (if parse_series_code im i c s m ≠ "" then
          [{ code := parse_series_code im i c s m, date := dc, value := handle_negative_values v }]
        else [])
      else [] := rfl

/-! ### C2 -/

/-- C2, counterexample: the TemplateColumn universe does not have 176
entries; the spec's claimed breakdown count `4 x 4 x 2 x 2` is 64, not 128. -/
theorem c2_template_size_counterexample : get_template_columns.length ≠ 176 := by decide

set_option maxRecDepth 20000 in
/-- C2 (amended): the TemplateColumn universe returned by
`get_template_columns` has exactly 112 entries (48 main-summary columns plus
64 breakdown columns), independent of any input document: it is a constant
function of no input (a closed Lean definition). -/
theorem c2_template_size : get_template_columns.length = 48 + 64 := by decide

/-! ### C4 -/

set_option maxRecDepth 20000 in
/-- C4, counterexample: the template does not have 176 series codes (it has
112), so the claim's description of the universe is false as stated. -/
theorem c4_nodup_counterexample : (get_template_columns.map (·.code)).length ≠ 176 := by decide

set_option maxRecDepth 100000 in
set_option maxHeartbeats 4000000 in
/-- C4 (amended): series-code generation is injective over the enumerated
universe: the 112-element template contains no duplicate code.  (Proved by
pulling an injective radix encoding of the codes back through
`List.Nodup.of_map`.) -/
theorem c4_series_codes_nodup : (get_template_columns.map (·.code)).Nodup :=
  List.Nodup.of_map strKey (by decide)

/-! ### C3 -/

set_option maxRecDepth 40000 in
/-- C3: `extract_date_from_filename` is a pure function by construction (it
is a closed Lean definition), and on the filename derived by
`generate_filename` from the report label `Jul 2025, Week2（7/7 - 7/11）`
(whose stem contains `Jul_2025_Week2_7-7`) it returns the week key
`2025-28`: 2025-07-07 is a Monday (ISO weekday 1) in ISO week 28 of 2025. -/
theorem c3_week_key_concrete :
    generate_filename "Jul 2025, Week2（7/7 - 7/11）" "pdf" = "Jul_2025_Week2_7-7_-_7-11.pdf" ∧
    extract_date_from_filename "Jul_2025_Week2_7-7_-_7-11" = "2025-28" ∧
    dowISO 2025 7 7 = 1 ∧ isoYearWeek 2025 7 7 = (2025, 28) :=
  ⟨by decide, by decide, by decide, by decide⟩

/-! ### C5 counterexample -/

/-- C5, counterexample: `handle_negative_values` strips surrounding
whitespace before replacing the `▲` glyph, so a value with trailing
whitespace is not mapped to `-` followed by the rest of the string: the
input `▲1 ` (trailing blank) yields `-1`, not `-1 `. -/
theorem c5_sign_counterexample :
    handle_negative_values (some "▲1 ") ≠ "-" ++ (("▲1 " : String).drop 1) ∧
    handle_negative_values (some "▲1 ") = "-1" :=
  ⟨by decide, by decide⟩

/-! ### C10 -/

/-- C10: the pivot built by `generate_output_file` (multiple.py lines
184-189) resolves two data points with the same series code and week key by
last-write-wins: the cell holds the value of the datum occurring later in
the input list (the matrix cell for `(date, code)` is exactly
`pivotGet all_data code date`, see `generate_output_file`), and the earlier
value is discarded. -/
theorem c10_last_write_wins (l l' : List Datum) (d : Datum) (c dt : String)
    (hc : d.code = c) (hdt : d.date = dt)
    (h : ∀ e ∈ l', ¬(e.code = c ∧ e.date = dt)) :
    pivotGet (l ++ d :: l') c dt = d.value := by
  unfold pivotGet
  have hl' : List.filter (fun e => e.code == c && e.date == dt) l' = [] := by
    rw [List.filter_eq_nil_iff]
    intro a ha hpa
    simp only [Bool.and_eq_true, beq_iff_eq] at hpa
    exact h a ha hpa
  rw [List.filter_append, List.filter_cons]
  simp only [hc, hdt, beq_self_eq_true, Bool.and_self, if_true, hl', List.getLast?_concat]

/-- Witness for C10: with two conflicting entries for the first template
column in week `2025-28`, the later value `2` wins. -/
theorem c10_last_write_wins_witness :
    pivotGet conflictDataA firstTemplateCode "2025-28" = "2" := by
  have h := c10_last_write_wins
    [{ code := firstTemplateCode, date := "2025-28", value := "1" }] []
    { code := firstTemplateCode, date := "2025-28", value := "2" }
    firstTemplateCode "2025-28" rfl rfl (by simp)
  simpa [conflictDataA] using h

/-! ### Template membership -/

/-- Every main-summary combination appears in the template. -/
theorem mainEntry_mem_template {ip cp : String × String} {s m : String}
    (hip : ip ∈ instruments) (hcp : cp ∈ main_cats)
    (hs : s ∈ subcat_list) (hm : m ∈ metric_list) :
    mainTemplateEntry ip cp s m ∈ get_template_columns := by
  unfold get_template_columns
  exact List.mem_append_left _ (List.mem_flatMap.mpr ⟨ip, hip,
    List.mem_flatMap.mpr ⟨cp, hcp,
      List.mem_flatMap.mpr ⟨s, hs, List.mem_map.mpr ⟨m, hm, rfl⟩⟩⟩⟩)

/-- Every breakdown combination appears in the template. -/
theorem breakdownEntry_mem_template {ip cp : String × String} {s m : String}
    (hip : ip ∈ instruments) (hcp : cp ∈ breakdown_cats)
    (hs : s ∈ subcat_list) (hm : m ∈ metric_list) :
    breakdownTemplateEntry ip cp s m ∈ get_template_columns := by
  unfold get_template_columns
  exact List.mem_append_right _ (List.mem_flatMap.mpr ⟨ip, hip,
    List.mem_flatMap.mpr ⟨cp, hcp,
      List.mem_flatMap.mpr ⟨s, hs, List.mem_map.mpr ⟨m, hm, rfl⟩⟩⟩⟩)

/-- The series code built by `_parse_table` from enumerated components is a
template code: the format strings on multiple.py lines 144-149 coincide with
those on lines 60-72. -/
theorem parse_code_mem_template (im : Bool) {instr cat sub metric : String}
    (hi : instr ∈ instruments.map (·.1))
    (hc : cat ∈ (if im then main_cats else breakdown_cats).map (·.1))
    (hs : sub ∈ subcat_list) (hm : metric ∈ metric_list) :
    parse_series_code im instr cat sub metric ∈ get_template_columns.map (·.code) := by
  rcases List.mem_map.mp hi with ⟨ip, hip, rfl⟩
  cases im
  · have hc' : cat ∈ breakdown_cats.map (·.1) := by simpa using hc
    rcases List.mem_map.mp hc' with ⟨cp, hcp, rfl⟩
    exact List.mem_map.mpr
      ⟨breakdownTemplateEntry ip cp sub metric, breakdownEntry_mem_template hip hcp hs hm, rfl⟩
  · have hc' : cat ∈ main_cats.map (·.1) := by simpa using hc
    rcases List.mem_map.mp hc' with ⟨cp, hcp, rfl⟩
    exact List.mem_map.mpr
      ⟨mainTemplateEntry ip cp sub metric, mainEntry_mem_template hip hcp hs hm, rfl⟩

/-- Elimination principle for `_parse_table`: every emitted datum is built
from a category of the table-type-appropriate dictionary, a subcategory, a
metric of the metric loop, carries the given date, and has a non-empty
value. -/
theorem parse_table_mem_elim {rows : List (List (Option String))}
    {instr date ttype : String} {d : Datum}
    (hd : d ∈ _parse_table rows instr date ttype) :
    ∃ cat sub metric,
      cat ∈ ((if ttype == "main_summary" then main_summary_categories
              else brokerage_categories).map (·.2)) ∧
      sub ∈ subcategories.map (·.2) ∧
      metric ∈ metric_list ∧
      d.code = parse_series_code (ttype == "main_summary") instr cat sub metric ∧
      d.date = date ∧ d.value ≠ "" := by
  rw [parse_table_def] at hd
  rcases List.mem_flatMap.mp hd with ⟨row, _hrow, hmem⟩
  unfold parseRow at hmem
  split at hmem
  · exact absurd hmem (List.not_mem_nil d)
  split at hmem
  · exact absurd hmem (List.not_mem_nil d)
  split at hmem
  case _ cp sp hcp hsp =>
    have hcpm := List.mem_of_find?_eq_some hcp
    have hspm := List.mem_of_find?_eq_some hsp
    rcases List.mem_append.mp hmem with h | h
    · rw [emitMetric_def] at h
      split at h
      · split at h
        · have hd' := List.mem_singleton.mp h
          subst hd'
          exact ⟨cp.2, sp.2, "VALUE", List.mem_map.mpr ⟨cp, hcpm, rfl⟩,
            List.mem_map.mpr ⟨sp, hspm, rfl⟩, by simp [metric_list], rfl, rfl,
            by assumption⟩
        · exact absurd h (List.not_mem_nil d)
      · exact absurd h (List.not_mem_nil d)
    · rw [emitMetric_def] at h
      split at h
      · split at h
        · have hd' := List.mem_singleton.mp h
          subst hd'
          exact ⟨cp.2, sp.2, "BALANCE", List.mem_map.mpr ⟨cp, hcpm, rfl⟩,
            List.mem_map.mpr ⟨sp, hspm, rfl⟩, by simp [metric_list], rfl, rfl,
            by assumption⟩
        · exact absurd h (List.not_mem_nil d)
      · exact absurd h (List.not_mem_nil d)
  case _ =>
    exact absurd hmem (List.not_mem_nil d)

/-! ### C1 -/

/-- C1: every datum emitted by `_parse_table` for an instrument code drawn
from the instrument mapping, with the table-type-appropriate category
dictionary and either subcategory and metric, has a series code inside the
TemplateColumn universe of `get_template_columns`; no emitted datum carries
a code outside that universe. -/
theorem c1_parse_codes_in_template (rows : List (List (Option String)))
    (instr date ttype : String) (d : Datum)
    (hi : instr ∈ instrument_mapping.map (·.2))
    (hd : d ∈ _parse_table rows instr date ttype) :
    d.code ∈ get_template_columns.map (·.code) := by
  rcases parse_table_mem_elim hd with ⟨cat, sub, metric, hc, hs, hm, hcode, -, -⟩
  rw [hcode]
  apply parse_code_mem_template (ttype == "main_summary")
  · have hmap : instrument_mapping.map (·.2) = instruments.map (·.1) := by decide
    rwa [hmap] at hi
  · have hcats : (if ttype == "main_summary" then main_summary_categories
        else brokerage_categories).map (·.2)
        = (if ttype == "main_summary" then main_cats else breakdown_cats).map (·.1) := by
      cases (ttype == "main_summary") <;> decide
    rwa [hcats] at hc
  · have hsub : subcategories.map (·.2) = subcat_list := by decide
    rwa [hsub] at hs
  · exact hm

set_option maxRecDepth 8000 in
/-- Witness for C1: a concrete main-summary row for the 10-year future emits
a datum whose code the theorem places inside the template universe. -/
theorem c1_parse_codes_in_template_witness :
    ("JGB10YEARFUTURES" ∈ instrument_mapping.map (·.2)) ∧
    ({ code := "JGBF.TOTAL_PROPRIETARY_BROKERAGE.JGB10YEARFUTURES.TRADINGVALUE.PROPRIETARY.SALES.VALUE.W",
       date := "2025-28", value := "100" } : Datum) ∈
      _parse_table [[some "自己取引計", some "売り", none, none, none, some "100", none, some "200"]]
        "JGB10YEARFUTURES" "2025-28" "main_summary" ∧
    ("JGBF.TOTAL_PROPRIETARY_BROKERAGE.JGB10YEARFUTURES.TRADINGVALUE.PROPRIETARY.SALES.VALUE.W"
      ∈ get_template_columns.map (·.code)) := by
  refine ⟨by decide, by decide, ?_⟩
  exact c1_parse_codes_in_template
    [[some "自己取引計", some "売り", none, none, none, some "100", none, some "200"]]
    "JGB10YEARFUTURES" "2025-28" "main_summary"
    { code := "JGBF.TOTAL_PROPRIETARY_BROKERAGE.JGB10YEARFUTURES.TRADINGVALUE.PROPRIETARY.SALES.VALUE.W",
      date := "2025-28", value := "100" }
    (by decide) (by decide)

/-! ### C5 -/

/-- C5 (amended): `handle_negative_values` maps `None`, `"-"` and the empty
string to the empty string; it maps any value whose *whitespace-stripped*
form starts with the glyph `▲` to `-` followed by the rest of the stripped
string (the function strips surrounding whitespace first, see
`c5_sign_counterexample`); and `_parse_table` emits a datum only when the
normalized figure is non-empty. -/
theorem c5_sign_normalization :
    handle_negative_values none = "" ∧
    handle_negative_values (some "-") = "" ∧
    handle_negative_values (some "") = "" ∧
    (∀ s : String, startsWithList "▲".data (pyStrip s).data = true →
      handle_negative_values (some s) = "-" ++ (pyStrip s).drop 1) ∧
    (∀ rows instr date ttype (d : Datum),
      d ∈ _parse_table rows instr date ttype → d.value ≠ "") := by
  refine ⟨rfl, by decide, rfl, ?_, ?_⟩
  · intro s hs
    have hne : ¬(s = "-" ∨ s = "") := by
      rintro (rfl | rfl)
      · exact absurd hs (by decide)
      · exact absurd hs (by decide)
    have hv : handle_negative_values (some s) =
        if s = "-" ∨ s = "" then ""
        else if startsWithList "▲".data (pyStrip s).data then "-" ++ (pyStrip s).drop 1
        else pyStrip s := rfl
    rw [hv, if_neg hne, if_pos hs]
  · intro rows instr date ttype d hd
    exact (parse_table_mem_elim hd).choose_spec.choose_spec.choose_spec.2.2.2.2.2

/-- Witness for C5: the spec's own example `▲1,234` normalizes to `-1,234`
through the theorem. -/
theorem c5_sign_normalization_witness :
    handle_negative_values (some "▲1,234") = "-1,234" := by
  have h := c5_sign_normalization.2.2.2.1 "▲1,234" (by decide)
  rw [h]
  decide

/-! ### C7 -/

/-- C7: the row loop of `_parse_table` skips, without contributing any datum,
every row with fewer than 8 positional fields, every row whose category or
subcategory cell is empty or matches no dictionary label, and every row
whose subcategory cell contains the total-aggregate label `合計`; removing
such a row from a sheet leaves the parse result unchanged.  The Lean model
is total, so no exception can be raised. -/
theorem c7_malformed_rows_skipped (pre post : List (List (Option String)))
    (row : List (Option String)) (instr date ttype : String)
    (h : row.length < 8 ∨ cat_full row = "" ∨ subcat_raw row = "" ∨
         pyIn "合計" (subcat_raw row) = true ∨
         (if ttype == "main_summary" then main_summary_categories
          else brokerage_categories).find? (fun p => pyIn p.1 (cat_full row)) = none ∨
         subcategories.find? (fun p => pyIn p.1 (subcat_raw row)) = none) :
    parseRow (if ttype == "main_summary" then main_summary_categories
      else brokerage_categories) (ttype == "main_summary") instr date row = [] ∧
    _parse_table (pre ++ row :: post) instr date ttype =
      _parse_table (pre ++ post) instr date ttype := by
  have hrow : parseRow (if ttype == "main_summary" then main_summary_categories
      else brokerage_categories) (ttype == "main_summary") instr date row = [] := by
    unfold parseRow
    by_cases h8 : row.length < 8
    · rw [if_pos h8]
    rw [if_neg h8]
    by_cases hc2 : cat_full row = "" ∨ subcat_raw row = "" ∨
      pyIn "合計" (subcat_raw row) = true
    · rw [if_pos hc2]
    rw [if_neg hc2]
    rcases h with h | h | h | h | h | h
    · exact absurd h h8
    · exact absurd (Or.inl h) hc2
    · exact absurd (Or.inr (Or.inl h)) hc2
    · exact absurd (Or.inr (Or.inr h)) hc2
    · rw [h]
    · rw [h]
      cases (if ttype == "main_summary" then main_summary_categories
        else brokerage_categories).find? (fun p => pyIn p.1 (cat_full row)) <;> rfl
  refine ⟨hrow, ?_⟩
  rw [parse_table_def, parse_table_def, List.flatMap_append, List.flatMap_append,
    List.flatMap_cons, hrow, List.nil_append]

set_option maxRecDepth 8000 in
/-- Witness for C7: a five-field row is skipped and contributes nothing next
to a well-formed row. -/
theorem c7_malformed_rows_skipped_witness :
    parseRow (if "main_summary" == "main_summary" then main_summary_categories
      else brokerage_categories) ("main_summary" == "main_summary")
      "JGB10YEARFUTURES" "2025-28" [some "自己取引計", some "売り", none, none, none] = [] ∧
    _parse_table
        ([[some "自己取引計", some "売り", none, none, none, some "100", none, some "200"]]
          ++ [some "自己取引計", some "売り", none, none, none] :: [])
        "JGB10YEARFUTURES" "2025-28" "main_summary" =
      _parse_table
        ([[some "自己取引計", some "売り", none, none, none, some "100", none, some "200"]] ++ [])
        "JGB10YEARFUTURES" "2025-28" "main_summary" :=
  c7_malformed_rows_skipped
    [[some "自己取引計", some "売り", none, none, none, some "100", none, some "200"]] []
    [some "自己取引計", some "売り", none, none, none]
    "JGB10YEARFUTURES" "2025-28" "main_summary" (Or.inl (by decide))

/-! ### C8 -/

/-- C8: when an input string matches none of the three known date/filename
patterns, `extract_date_from_filename` returns the `"UNKNOWN_DATE"` sentinel
(the Lean model is total, so no exception escapes), and
`process_single_file` then skips the entire file, returning the empty
result list whatever the workbook contains. -/
theorem c8_unknown_date_sentinel (s : String)
    (h1 : searchFrom match1At s.data = none)
    (h2 : searchFrom match2At s.data = none)
    (h3 : searchFrom match3At s.data = none) :
    extract_date_from_filename s = "UNKNOWN_DATE" ∧
    ∀ sheets, process_single_file s sheets = [] := by
  have hx : extract_date_from_filename s = "UNKNOWN_DATE" := by
    simp only [extract_date_from_filename, h1, h2, h3]
  refine ⟨hx, fun sheets => ?_⟩
  simp only [process_single_file, hx, if_pos]

/-- Witness for C8: a patternless stem is rejected and the whole file is
skipped even though its sheets carry parseable data. -/
theorem c8_unknown_date_sentinel_witness :
    extract_date_from_filename "hello" = "UNKNOWN_DATE" ∧
    process_single_file "hello"
      [{ sheet_name := "Table1_Main_Summary_1", subtitle := "JGB(10-year) Futures",
         data_rows := [[some "自己取引計", some "売り", none, none, none, some "1",
           none, some "2"]] }] = [] := by
  have h := c8_unknown_date_sentinel "hello" (by decide) (by decide) (by decide)
  exact ⟨h.1, h.2 _⟩

/-! ### C6 -/

/-- The sorted distinct date list is invariant under permutation of the
input data. -/
theorem sorted_dates_perm {l₁ l₂ : List Datum} (hp : l₁.Perm l₂) :
    sorted_dates l₁ = sorted_dates l₂ := by
  unfold sorted_dates
  have h : (((l₁.map (·.date)).dedup).filter (fun d => d != "UNKNOWN_DATE")).Perm
      (((l₂.map (·.date)).dedup).filter (fun d => d != "UNKNOWN_DATE")) :=
    ((hp.map (·.date)).dedup).filter _
  exact List.eq_of_perm_of_sorted
    (((List.perm_insertionSort _ _).trans h).trans (List.perm_insertionSort _ _).symm)
    (List.sorted_insertionSort _ _) (List.sorted_insertionSort _ _)

/-- When no two entries of the list disagree on a cell, the last-write-wins
cell lookup is invariant under permutation of the input data. -/
theorem pivotGet_perm {l₁ l₂ : List Datum} (hp : l₁.Perm l₂) (hcf : conflictFree l₁)
    (c dt : String) : pivotGet l₁ c dt = pivotGet l₂ c dt := by
  unfold pivotGet
  have hf : (l₁.filter fun d => d.code == c && d.date == dt).Perm
      (l₂.filter fun d => d.code == c && d.date == dt) := hp.filter _
  cases h1 : (l₁.filter fun d => d.code == c && d.date == dt).getLast? with
  | none =>
    have e1 : l₁.filter (fun d => d.code == c && d.date == dt) = [] :=
      List.getLast?_eq_none_iff.mp h1
    have e2 : l₂.filter (fun d => d.code == c && d.date == dt) = [] :=
      (e1 ▸ hf).symm.eq_nil
    rw [e2]
    rfl
  | some d₁ =>
    cases h2 : (l₂.filter fun d => d.code == c && d.date == dt).getLast? with
    | none =>
      have e2 : l₂.filter (fun d => d.code == c && d.date == dt) = [] :=
        List.getLast?_eq_none_iff.mp h2
      rw [e2] at hf
      rw [hf.eq_nil] at h1
      exact absurd h1 (by simp)
    | some d₂ =>
      have hm₁ : d₁ ∈ l₁.filter (fun d => d.code == c && d.date == dt) :=
        List.mem_of_mem_getLast? (by rw [h1]; rfl)
      have hm₂ : d₂ ∈ l₂.filter (fun d => d.code == c && d.date == dt) :=
        List.mem_of_mem_getLast? (by rw [h2]; rfl)
      have hm₂' : d₂ ∈ l₁.filter (fun d => d.code == c && d.date == dt) :=
        hf.symm.subset hm₂
      rcases List.mem_filter.mp hm₁ with ⟨hin₁, hpred₁⟩
      rcases List.mem_filter.mp hm₂' with ⟨hin₂, hpred₂⟩
      simp only [Bool.and_eq_true, beq_iff_eq] at hpred₁ hpred₂
      exact hcf d₁ hin₁ d₂ hin₂ (hpred₁.1.trans hpred₂.1.symm)
        (hpred₁.2.trans hpred₂.2.symm)

set_option maxRecDepth 8000 in
/-- C6, counterexample: consolidation is not order-insensitive for every
list: with two entries for the same series code and week but different
values, the two orders produce different matrices (the conflict cell holds
`2` in one order and `1` in the other, by last-write-wins). -/
theorem c6_order_counterexample :
    conflictDataA.Perm conflictDataB ∧
    generate_output_file conflictDataA ≠ generate_output_file conflictDataB := by
  constructor
  · exact List.Perm.swap _ _ _
  · intro heq
    have h := congrArg (Option.map fun m => (m.getD 2 []).getD 1 "") heq
    have e1 : (generate_output_file conflictDataA).map
        (fun m => (m.getD 2 []).getD 1 "") = some "2" := by decide
    have e2 : (generate_output_file conflictDataB).map
        (fun m => (m.getD 2 []).getD 1 "") = some "1" := by decide
    rw [e1, e2] at h
    exact absurd (Option.some.inj h) (by decide)

/-- C6 (amended): consolidation is order-insensitive and idempotent on
conflict-free inputs: for every list of data in which no two entries give
different values to the same `(SeriesCode, WeekKey)` cell, every permutation
of the list produces the identical matrix (identical header rows, identical
sorted week rows, identical cells); `generate_output_file` is a pure
function, so running it twice on the same list trivially yields identical
output.  (When the list has conflicting duplicates the matrix depends on the
order, see `c6_order_counterexample`.) -/
theorem c6_consolidation_perm_invariant (l₁ l₂ : List Datum) (hp : l₁.Perm l₂)
    (hcf : conflictFree l₁) :
    generate_output_file l₁ = generate_output_file l₂ := by
  have hempty : l₁.isEmpty = l₂.isEmpty := by
    rcases l₁ with _ | ⟨a, t⟩
    · rw [← hp.nil_eq]
    · rcases l₂ with _ | ⟨b, t₂⟩
      · exact absurd hp.symm.nil_eq (by simp)
      · rfl
  simp only [generate_output_file]
  rw [hempty, sorted_dates_perm hp]
  split
  · rfl
  · split
    · rfl
    · refine congrArg some (congrArg _ (congrArg _ (List.map_congr_left fun dt _ => ?_)))
      exact congrArg _ (List.map_congr_left fun col _ => pivotGet_perm hp hcf col.code dt)

/-- Witness for C6: two conflict-free data points in either order give the
identical matrix. -/
theorem c6_consolidation_perm_invariant_witness :
    generate_output_file
      [{ code := "A", date := "2025-28", value := "1" },
       { code := "B", date := "2025-29", value := "2" }] =
    generate_output_file
      [{ code := "B", date := "2025-29", value := "2" },
       { code := "A", date := "2025-28", value := "1" }] :=
  c6_consolidation_perm_invariant _ _ (List.Perm.swap _ _ _)
    (by unfold conflictFree; decide)

/-! ### C9 -/

/-- The padding loop always terminates with exactly four titles when it
starts from at most four (each pass appends one). -/
theorem padTitlesAux_length (n : Nat) : ∀ l : List String,
    4 ≤ l.length + n → l.length ≤ 4 → (padTitlesAux n l).length = 4 := by
  induction n with
  | zero =>
    intro l h1 h2
    simp only [padTitlesAux]
    omega
  | succ k ih =>
    intro l h1 h2
    simp only [padTitlesAux]
    by_cases hl : l.length < 4
    · rw [if_pos hl]
      apply ih
      · simp only [List.length_append, List.length_cons, List.length_nil]
        omega
      · simp only [List.length_append, List.length_cons, List.length_nil]
        omega
    · rw [if_neg hl]
      omega

/-- `extract_table_titles_from_text` always returns exactly four titles,
whatever the page text: found section titles first, then `(Not Found)`
placeholders. -/
theorem extract_table_titles_length (text : String) :
    (extract_table_titles_from_text text).length = 4 := by
  unfold extract_table_titles_from_text padTitles
  apply padTitlesAux_length
  · exact Nat.le_add_left 4 _
  · calc ((table_keywords.zip table_section_titles).filterMap fun p =>
          if pyIn p.1 text then some p.2 else none).length
        ≤ (table_keywords.zip table_section_titles).length := List.length_filterMap_le _ _
      _ = 4 := rfl

/-- C9 (amended): table-section titles are assigned to a page's tables
positionally by slot = table-index-on-page modulo 4, cycling when the page
yields more than four tables; the index-based fallback label of
new2.py line 286 would apply only to a slot beyond the supplied title list,
which cannot happen because `extract_table_titles_from_text` always supplies
exactly four titles (missing sections are padded with `(Not Found)`
placeholders inside the title list itself, not at assignment time). -/
theorem c9_slot_assignment (text : String) (count i : Nat) (hi : i < count) :
    (extract_table_titles_from_text text).length = 4 ∧
    (assign_table_titles (extract_table_titles_from_text text) count).getD i "" =
      (extract_table_titles_from_text text).getD (i % 4) "" := by
  refine ⟨extract_table_titles_length text, ?_⟩
  unfold assign_table_titles
  rw [List.getD_eq_getElem?_getD, List.getElem?_map, List.getElem?_range hi]
  have h4 : i % 4 < (extract_table_titles_from_text text).length := by
    rw [extract_table_titles_length]
    exact Nat.mod_lt _ (by norm_num)
  simp [h4]

/-- Witness for C9: with all four section keywords present and five tables
on the page, the fifth table (index 4) receives the slot-0 title. -/
theorem c9_slot_assignment_witness :
    (extract_table_titles_from_text "委託内訳").length = 4 ∧
    (assign_table_titles (extract_table_titles_from_text "委託内訳") 5).getD 4 "" =
      (extract_table_titles_from_text "委託内訳").getD (4 % 4) "" :=
  ⟨(c9_slot_assignment "委託内訳" 5 4 (by decide)).1,
   (c9_slot_assignment "委託内訳" 5 4 (by decide)).2⟩

set_option maxRecDepth 8000 in
/-- C9, counterexample: when a page yields more than 4 tables, slot
assignment does not degrade to an index-based fallback label: with five
tables and all four section titles found in the page text, the fifth table
(slot `4 % 4 = 0`) receives the matched section title of slot 0 again, not
any fallback label. -/
theorem c9_fallback_counterexample :
    (assign_table_titles (extract_table_titles_from_text
        "総計・自己合計・委託合計 委託内訳 法人内訳 金融機関内訳") 5).getD 4 ""
      = "総計・自己合計・委託合計 Total, Proprietary & Brokerage" ∧
    "総計・自己合計・委託合計 Total, Proprietary & Brokerage" ≠ "Table Title 1" ∧
    (extract_table_titles_from_text
        "総計・自己合計・委託合計 委託内訳 法人内訳 金融機関内訳").getD 0 ""
      = "総計・自己合計・委託合計 Total, Proprietary & Brokerage" :=
  ⟨by decide, by decide, by decide⟩
